import Mathlib

/-!
# LaserController: TTL signal generator

A shallow embedding of `LaserController.cpp` and the properties of its waveform state.

Modelling conventions.

* The `double` members of the class hold exact rationals (`ℚ`): rounding is not modelled.
* A quotient of two C++ integer literals (`1000/30`, `1000/3000`) is an integer division,
  as in C++; it is written with `ℤ` division and then converted.  A quotient with a
  `double` operand (`1000/.3`, `1000/cycleTime`, `1000/getParameter(..).toDouble()`) is a
  rational division.
* The values of a double that are not rationals appear where the code can produce them.
  The frequency parameter is a finite double, so it can be the negative zero (`Divisor`).
  The quotient `1000/x` that is stored in `cycleTime` right before `tetherFrequency` runs
  is `+∞` for the positive zero and `-∞` for the negative zero (`Reciprocal`).
  `elapsedTime` can be a NaN (`Elapsed`): `elapsedTime % cycleTime` is the floating
  remainder (`fmod`), the dividend minus the divisor times the quotient truncated toward
  zero, and it is a NaN for a zero divisor or a NaN dividend.  A comparison with a NaN is
  false and a sum with a NaN is a NaN.  The negative zero acts as zero everywhere except
  as a divisor, so the other members and the duty parameter do not carry it; the divisor
  `cycleTime` of `update(INIT)` is the number that `initParameters` stored.
* The two GUI parameters read by `getParameter` and written by `setParameter`, the output
  channel `output(0)` and the period reported by `RT::System` belong to the host framework.
  The parameters and the output channel are fields of the state; the reported period is an
  argument of `update`.
-/

namespace LaserController

/-- A finite double that is used as a divisor: a rational number, or the negative zero.
`num 0` is the positive zero. -/
inductive Divisor where
  | num (x : ℚ)
  | negZero
  deriving DecidableEq

/-- The quotient `1000/x` of doubles: a rational number, `+∞` or `-∞`. -/
inductive Reciprocal where
  | num (q : ℚ)
  | posInf
  | negInf
  deriving DecidableEq

/-- The value of `elapsedTime`: a rational number, or a NaN. -/
inductive Elapsed where
  | num (x : ℚ)
  | nan
  deriving DecidableEq

/-- The members of `LaserController`, the two GUI parameters and the output channel. -/
structure State where
  /-- Length of one on/off cycle, ms. -/
  cycleTime : ℚ
  /-- Fraction of the cycle during which the output is on. -/
  dutyCyclePercentage : ℚ
  /-- Time already spent in the current cycle, ms. -/
  elapsedTime : Elapsed
  /-- Length of the on part of a cycle, ms. -/
  dutyTimeWithinCycle : ℚ
  /-- Length of one real-time tick, ms. -/
  period : ℚ
  /-- The GUI parameter "Frequency (Hz)". -/
  paramFrequency : Divisor
  /-- The GUI parameter "Duty Cycle (%)". -/
  paramDutyCycle : ℚ
  /-- The output channel `output(0)`, volts. -/
  output0 : ℚ
  deriving DecidableEq

/-- The flags of `DefaultGUIModel::update_flags_t`; `EXIT` falls to the `default` branch. -/
inductive update_flags_t where
  | INIT
  | MODIFY
  | PERIOD
  | PAUSE
  | UNPAUSE
  | EXIT
  deriving DecidableEq

/-- Truncation of a rational toward zero. -/
def truncQ (q : ℚ) : ℤ :=
  if 0 ≤ q then ⌊q⌋ else ⌈q⌉

/-- The floating remainder `x % y` for a non-zero `y`: it has the sign of `x`. -/
def fmod (x y : ℚ) : ℚ :=
  x - y * (truncQ (x / y) : ℚ)

/-- The remainder `elapsedTime % cycleTime` of doubles: a NaN for a NaN dividend and for a
zero divisor. -/
def Elapsed.mod : Elapsed → ℚ → Elapsed
  | .num x, y => if y = 0 then .nan else .num (fmod x y)
  | .nan, _ => .nan

/-- The sum `elapsedTime + period` of doubles: a NaN for a NaN. -/
def Elapsed.add : Elapsed → ℚ → Elapsed
  | .num x, p => .num (x + p)
  | .nan, _ => .nan

/-- The comparison `elapsedTime >= d` of doubles: false for a NaN. -/
def Elapsed.ge : Elapsed → ℚ → Prop
  | .num x, d => x ≥ d
  | .nan, _ => False

/-- The comparison `elapsedTime < d` of doubles: false for a NaN. -/
def Elapsed.lt : Elapsed → ℚ → Prop
  | .num x, d => x < d
  | .nan, _ => False

instance Elapsed.decidableGe : (e : Elapsed) → (d : ℚ) → Decidable (e.ge d)
  | .num x, d => inferInstanceAs (Decidable (x ≥ d))
  | .nan, _ => inferInstanceAs (Decidable False)

instance Elapsed.decidableLt : (e : Elapsed) → (d : ℚ) → Decidable (e.lt d)
  | .num x, d => inferInstanceAs (Decidable (x < d))
  | .nan, _ => inferInstanceAs (Decidable False)

/-- The quotient `1000/x` of doubles: `+∞` for the positive zero, `-∞` for the negative
zero. -/
def quot1000 : Divisor → Reciprocal
  | .num x => if x = 0 then .posInf else .num (1000 / x)
  | .negZero => .negInf

/-- The body of `tetherDutyCycle`, on the value of `dutyCyclePercentage`. -/
def tetherDutyCycle (dutyCyclePercentage : ℚ) : ℚ :=
  let d := if dutyCyclePercentage > 1 then 1 else dutyCyclePercentage
  if d < 0 then 0 else d

/-- The body of `tetherFrequency`, on the value of `cycleTime`.
The bound `1000/.3` is a double quotient, the bound `1000/3000` an integer quotient.
`+∞` passes the first test; `-∞` fails the first test and passes the second. -/
def tetherFrequency : Reciprocal → ℚ
  | .posInf => 1000 / 0.3
  | .negInf => (((1000 : ℤ) / 3000 : ℤ) : ℚ)
  | .num cycleTime =>
    if cycleTime ≥ 1000 / 0.3 then 1000 / 0.3
    else if cycleTime ≤ (((1000 : ℤ) / 3000 : ℤ) : ℚ) then (((1000 : ℤ) / 3000 : ℤ) : ℚ)
    else cycleTime

/-- The real-time loop `execute`. -/
def execute (s : State) : State :=
  let elapsedTime := s.elapsedTime.mod s.cycleTime
  let out : ℚ := if elapsedTime.ge s.dutyTimeWithinCycle then 0 else 5
  { s with elapsedTime := elapsedTime.add s.period, output0 := out }

/-- The defaults set by `initParameters`. -/
def initParameters (s : State) : State :=
  let cycleTime : ℚ := (((1000 : ℤ) / 30 : ℤ) : ℚ)
  let dutyCyclePercentage : ℚ := 0.25
  { s with
    cycleTime := cycleTime
    dutyCyclePercentage := dutyCyclePercentage
    elapsedTime := .num 0
    dutyTimeWithinCycle := cycleTime * dutyCyclePercentage }

/-- The method `update`; `rtPeriod` is what `RT::System::getInstance()->getPeriod()`
returns at the time of the call. -/
def update (flag : update_flags_t) (rtPeriod : ℚ) (s : State) : State :=
  match flag with
  | .INIT =>
    let dutyCyclePercentage := tetherDutyCycle (s.dutyCyclePercentage / 100)
    let cycleTime := tetherFrequency (quot1000 (.num s.cycleTime))
    { s with
      period := rtPeriod * 1e-6
      paramFrequency := .num s.cycleTime
      paramDutyCycle := s.dutyCyclePercentage
      cycleTime := cycleTime
      dutyCyclePercentage := dutyCyclePercentage
      dutyTimeWithinCycle := cycleTime * dutyCyclePercentage }
  | .MODIFY =>
    let dutyCyclePercentage := tetherDutyCycle s.paramDutyCycle
    let cycleTime := tetherFrequency (quot1000 s.paramFrequency)
    { s with
      cycleTime := cycleTime
      dutyCyclePercentage := dutyCyclePercentage
      dutyTimeWithinCycle := cycleTime * dutyCyclePercentage }
  | .UNPAUSE => s
  | .PAUSE => { s with output0 := 0 }
  | .PERIOD => { s with period := rtPeriod * 1e-6 }
  | .EXIT => s

/-- The constructor: `initParameters()` followed by `update(INIT)`, on an object whose
members hold arbitrary values. -/
def construct (rtPeriod : ℚ) (s : State) : State :=
  update .INIT rtPeriod (initParameters s)

/-- The parameter source writes the two GUI parameters. -/
def writeParameters (frequency : Divisor) (dutyCycle : ℚ) (s : State) : State :=
  { s with paramFrequency := frequency, paramDutyCycle := dutyCycle }

/-- A parameter change to two numbers: the two GUI parameters are written and the host
calls `update(MODIFY)`. -/
def setParameters (frequency dutyCycle : ℚ) (rtPeriod : ℚ) (s : State) : State :=
  update .MODIFY rtPeriod (writeParameters (.num frequency) dutyCycle s)

/-- The host loop: `n` consecutive calls of `execute`. -/
def run : ℕ → State → State
  | 0, s => s
  | n + 1, s => run n (execute s)

/-- The level on the output channel after the tick numbered `n` (the first tick is
number 0). -/
def outputAt (n : ℕ) (s : State) : ℚ :=
  (run (n + 1) s).output0

/-- The states of a constructed object: the constructor ran on some memory, then the
host called the methods and the parameter source wrote the GUI parameters, in any order. -/
inductive Reachable : State → Prop
  | construct (rtPeriod : ℚ) (s : State) : Reachable (construct rtPeriod s)
  | initParameters {s : State} : Reachable s → Reachable (initParameters s)
  | update {s : State} (flag : update_flags_t) (rtPeriod : ℚ) :
      Reachable s → Reachable (update flag rtPeriod s)
  | writeParameters {s : State} (frequency : Divisor) (dutyCycle : ℚ) :
      Reachable s → Reachable (writeParameters frequency dutyCycle s)
  | execute {s : State} : Reachable s → Reachable (execute s)

/-- A state in the middle of a cycle of 33 ms with 8.25 ms on, 41 ms accumulated. -/
def midCycle : State :=
  { cycleTime := 33, dutyCyclePercentage := 1 / 4, elapsedTime := .num 41,
    dutyTimeWithinCycle := 33 / 4, period := 1, paramFrequency := .num 30,
    paramDutyCycle := 25, output0 := 0 }

/-- A state at the last tick of a cycle of 33 ms: 32 ms accumulated, ticks of 1 ms. -/
def lastTick : State :=
  { cycleTime := 33, dutyCyclePercentage := 1 / 4, elapsedTime := .num 32,
    dutyTimeWithinCycle := 33 / 4, period := 1, paramFrequency := .num 30,
    paramDutyCycle := 25, output0 := 0 }

/-- A state whose accumulated time is negative: cycle 33 ms, -1 ms accumulated, ticks of
1 ms. -/
def negativeElapsed : State :=
  { cycleTime := 33, dutyCyclePercentage := 1 / 4, elapsedTime := .num (-1),
    dutyTimeWithinCycle := 33 / 4, period := 1, paramFrequency := .num 30,
    paramDutyCycle := 25, output0 := 0 }

/-- The on-time is the product of the cycle time and the duty fraction. -/
def dutyTimeConsistent (s : State) : Prop :=
  s.dutyTimeWithinCycle = s.cycleTime * s.dutyCyclePercentage

/-! ## Lemmas on the arithmetic -/

theorem tetherDutyCycle_nonneg (d : ℚ) : 0 ≤ tetherDutyCycle d := by
  unfold tetherDutyCycle
  dsimp only
  split_ifs <;> linarith

theorem tetherDutyCycle_le_one (d : ℚ) : tetherDutyCycle d ≤ 1 := by
  unfold tetherDutyCycle
  dsimp only
  split_ifs <;> linarith

theorem tetherDutyCycle_eq (d : ℚ) : tetherDutyCycle d = max 0 (min 1 d) := by
  unfold tetherDutyCycle
  dsimp only
  split_ifs with h1 h2 h2
  · linarith
  · rw [min_eq_left (le_of_lt h1), max_eq_right (by norm_num)]
  · rw [min_eq_right (not_lt.mp h1), max_eq_left (le_of_lt h2)]
  · rw [min_eq_right (not_lt.mp h1), max_eq_right (not_lt.mp h2)]

theorem tetherFrequency_num (c : ℚ) :
    tetherFrequency (.num c) =
      if 10000 / 3 ≤ c then 10000 / 3 else if c ≤ 0 then 0 else c := by
  unfold tetherFrequency
  norm_num

theorem tetherFrequency_posInf : tetherFrequency .posInf = 10000 / 3 := by
  unfold tetherFrequency
  norm_num

theorem tetherFrequency_negInf : tetherFrequency .negInf = 0 := by
  unfold tetherFrequency
  norm_num

theorem quot1000_num (x : ℚ) :
    quot1000 (.num x) = if x = 0 then .posInf else .num (1000 / x) := rfl

theorem truncQ_of_nonneg {q : ℚ} (h : 0 ≤ q) : truncQ q = ⌊q⌋ := by
  unfold truncQ
  rw [if_pos h]

theorem fmod_nonneg {x y : ℚ} (hx : 0 ≤ x) (hy : 0 < y) : 0 ≤ fmod x y := by
  unfold fmod
  rw [truncQ_of_nonneg (div_nonneg hx hy.le)]
  have h := Int.floor_le (x / y)
  have h2 : (⌊x / y⌋ : ℚ) * y ≤ x := (le_div_iff₀ hy).mp h
  linarith

theorem fmod_lt {x y : ℚ} (hx : 0 ≤ x) (hy : 0 < y) : fmod x y < y := by
  unfold fmod
  rw [truncQ_of_nonneg (div_nonneg hx hy.le)]
  have h := Int.lt_floor_add_one (x / y)
  have h2 : x < ((⌊x / y⌋ : ℚ) + 1) * y := (div_lt_iff₀ hy).mp h
  linarith

theorem fmod_of_lt {x y : ℚ} (hx : 0 ≤ x) (hxy : x < y) : fmod x y = x := by
  have hy : 0 < y := lt_of_le_of_lt hx hxy
  unfold fmod
  rw [truncQ_of_nonneg (div_nonneg hx hy.le)]
  have h0 : ⌊x / y⌋ = 0 := by
    rw [Int.floor_eq_iff]
    constructor
    · simpa using div_nonneg hx hy.le
    · simpa using (div_lt_one hy).mpr hxy
  rw [h0]
  simp

/-- The remainder of a negative time lies in (-y, 0]. -/
theorem fmod_of_neg {x y : ℚ} (hx : x < 0) (hy : 0 < y) :
    -y < fmod x y ∧ fmod x y ≤ 0 := by
  have hq : ¬ (0 ≤ x / y) := not_le.mpr (div_neg_of_neg_of_pos hx hy)
  unfold fmod truncQ
  rw [if_neg hq]
  have h1 : x ≤ (⌈x / y⌉ : ℚ) * y := (div_le_iff₀ hy).mp (Int.le_ceil (x / y))
  have h2 : (⌈x / y⌉ : ℚ) - 1 < x / y := by
    have := Int.ceil_lt_add_one (x / y)
    linarith
  have h3 : ((⌈x / y⌉ : ℚ) - 1) * y < x := (lt_div_iff₀ hy).mp h2
  constructor <;> linarith

/-- A time that passes the test `>= 0` is a rational that is not negative. -/
theorem Elapsed.eq_num_of_ge {t : Elapsed} {d : ℚ} (h : t.ge d) : ∃ e, t = .num e ∧ d ≤ e := by
  cases t with
  | num x => exact ⟨x, rfl, h⟩
  | nan => exact absurd h (fun hf => hf)

/-! ## What `update(MODIFY)` and the constructor store -/

theorem setParameters_cycleTime (f d rtPeriod : ℚ) (s : State) :
    (setParameters f d rtPeriod s).cycleTime = tetherFrequency (quot1000 (.num f)) := rfl

theorem setParameters_dutyCyclePercentage (f d rtPeriod : ℚ) (s : State) :
    (setParameters f d rtPeriod s).dutyCyclePercentage = tetherDutyCycle d := rfl

theorem setParameters_dutyTimeWithinCycle (f d rtPeriod : ℚ) (s : State) :
    (setParameters f d rtPeriod s).dutyTimeWithinCycle =
      tetherFrequency (quot1000 (.num f)) * tetherDutyCycle d := rfl

theorem setParameters_elapsedTime (f d rtPeriod : ℚ) (s : State) :
    (setParameters f d rtPeriod s).elapsedTime = s.elapsedTime := rfl

theorem setParameters_period (f d rtPeriod : ℚ) (s : State) :
    (setParameters f d rtPeriod s).period = s.period := rfl

/-- For a positive frequency only the low-frequency bound acts on the cycle time. -/
theorem tetherFrequency_quot1000_of_pos {f : ℚ} (hf : 0 < f) :
    tetherFrequency (quot1000 (.num f))
      = if 10000 / 3 ≤ 1000 / f then 10000 / 3 else 1000 / f := by
  have hq : (0 : ℚ) < 1000 / f := by positivity
  rw [quot1000_num, if_neg hf.ne.symm, tetherFrequency_num]
  split_ifs with h1 h2
  · rfl
  · linarith
  · rfl

/-- A negative frequency gives a negative quotient, which the second branch of
`tetherFrequency` replaces by its integer bound. -/
theorem tetherFrequency_quot1000_of_neg {f : ℚ} (hf : f < 0) :
    tetherFrequency (quot1000 (.num f)) = (((1000 : ℤ) / 3000 : ℤ) : ℚ) := by
  have hq : (1000 : ℚ) / f < 0 := div_neg_of_pos_of_neg (by norm_num) hf
  rw [quot1000_num, if_neg hf.ne, tetherFrequency_num, if_neg (by linarith), if_pos hq.le]
  norm_num

/-- Whatever the frequency, the stored cycle time is 0 or lies in (0, 1000/.3]. -/
theorem tetherFrequency_bounds (q : Reciprocal) :
    0 ≤ tetherFrequency q ∧ tetherFrequency q ≤ 10000 / 3 := by
  cases q with
  | posInf => rw [tetherFrequency_posInf]; norm_num
  | negInf => rw [tetherFrequency_negInf]; norm_num
  | num c =>
    rw [tetherFrequency_num]
    split_ifs with h1 h2
    · norm_num
    · norm_num
    · exact ⟨le_of_lt (not_le.mp h2), le_of_lt (not_le.mp h1)⟩

/-- For a frequency that is not negative the stored cycle time is positive. -/
theorem tetherFrequency_pos_of_nonneg {f : ℚ} (h : 0 ≤ f) :
    0 < tetherFrequency (quot1000 (.num f)) := by
  rcases h.eq_or_lt with h0 | hf
  · rw [quot1000_num, if_pos h0.symm, tetherFrequency_posInf]
    norm_num
  · rw [tetherFrequency_quot1000_of_pos hf]
    split_ifs
    · norm_num
    · positivity

/-! ## One tick and many ticks -/

/-- One tick from a state whose elapsed time is a number and whose cycle time is not
zero. -/
theorem execute_num {s : State} {e : ℚ} (he : s.elapsedTime = .num e)
    (hc : s.cycleTime ≠ 0) :
    execute s = { s with
      elapsedTime := .num (fmod e s.cycleTime + s.period)
      output0 := if fmod e s.cycleTime ≥ s.dutyTimeWithinCycle then 0 else 5 } := by
  unfold execute
  rw [he]
  simp only [Elapsed.mod, if_neg hc, Elapsed.add, Elapsed.ge]

/-- When the on-time is the whole cycle, every tick puts 5 V on the output. -/
theorem run_high (n : ℕ) : ∀ s : State, 0 < s.cycleTime →
    s.dutyTimeWithinCycle = s.cycleTime → s.elapsedTime.ge 0 → 0 ≤ s.period →
    (run (n + 1) s).output0 = 5 := by
  induction n with
  | zero =>
    intro s hc hd he _
    obtain ⟨e, hs, h0⟩ := Elapsed.eq_num_of_ge he
    show (execute s).output0 = 5
    rw [execute_num hs hc.ne.symm]
    show (if fmod e s.cycleTime ≥ s.dutyTimeWithinCycle then (0 : ℚ) else 5) = 5
    rw [if_neg]
    rw [hd]
    exact not_le.mpr (fmod_lt h0 hc)
  | succ n ih =>
    intro s hc hd he hp
    obtain ⟨e, hs, h0⟩ := Elapsed.eq_num_of_ge he
    show (run (n + 1) (execute s)).output0 = 5
    rw [execute_num hs hc.ne.symm]
    exact ih _ hc hd (show (0 : ℚ) ≤ fmod e s.cycleTime + s.period from
      add_nonneg (fmod_nonneg h0 hc) hp) hp

/-- When the on-time is zero, every tick puts 0 V on the output. -/
theorem run_low (n : ℕ) : ∀ s : State, 0 < s.cycleTime →
    s.dutyTimeWithinCycle = 0 → s.elapsedTime.ge 0 → 0 ≤ s.period →
    (run (n + 1) s).output0 = 0 := by
  induction n with
  | zero =>
    intro s hc hd he _
    obtain ⟨e, hs, h0⟩ := Elapsed.eq_num_of_ge he
    show (execute s).output0 = 0
    rw [execute_num hs hc.ne.symm]
    show (if fmod e s.cycleTime ≥ s.dutyTimeWithinCycle then (0 : ℚ) else 5) = 0
    rw [if_pos]
    rw [hd]
    exact fmod_nonneg h0 hc
  | succ n ih =>
    intro s hc hd he hp
    obtain ⟨e, hs, h0⟩ := Elapsed.eq_num_of_ge he
    show (run (n + 1) (execute s)).output0 = 0
    rw [execute_num hs hc.ne.symm]
    exact ih _ hc hd (show (0 : ℚ) ≤ fmod e s.cycleTime + s.period from
      add_nonneg (fmod_nonneg h0 hc) hp) hp

/-! ## The claims -/

/-- C1, evaluated at the failing input frequency 10000 Hz, duty 150 %: `update(MODIFY)`
clamps the duty fraction to 1 but stores the cycle time 1000/10000 = 0.1 ms, which is
below the bound 1000/3000 ms of the 3000 Hz limit. -/
theorem C1_cycleTime_below_bound_at_10000 (rtPeriod : ℚ) (s : State) :
    (setParameters 10000 150 rtPeriod s).dutyCyclePercentage = 1 ∧
    (setParameters 10000 150 rtPeriod s).cycleTime = 1 / 10 ∧
    (setParameters 10000 150 rtPeriod s).cycleTime < 1000 / 3000 := by
  have hc : (setParameters 10000 150 rtPeriod s).cycleTime = 1 / 10 := by
    rw [setParameters_cycleTime, tetherFrequency_quot1000_of_pos (by norm_num)]
    norm_num
  refine ⟨?_, hc, ?_⟩
  · rw [setParameters_dutyCyclePercentage, tetherDutyCycle_eq]
    norm_num
  · rw [hc]
    norm_num

/-- C3, evaluated on the code: after the constructor (`initParameters` then
`update(INIT)`), for every reported period and every prior content of the members, the
cycle time is 1000/33 ms (more than 0.01 away from 1000/30), the duty fraction is 0.0025,
the on-time is 5/66 ms; the elapsed time is 0 and the period is the reported one times
1e-6. -/
theorem C3_construct_state (rtPeriod : ℚ) (s : State) :
    (construct rtPeriod s).cycleTime = 1000 / 33 ∧
    (construct rtPeriod s).dutyCyclePercentage = 1 / 400 ∧
    (construct rtPeriod s).elapsedTime = .num 0 ∧
    (construct rtPeriod s).dutyTimeWithinCycle = 5 / 66 ∧
    (construct rtPeriod s).period = rtPeriod * 1e-6 ∧
    ¬ (|(construct rtPeriod s).cycleTime - 1000 / 30| ≤ 1 / 100) ∧
    (construct rtPeriod s).dutyCyclePercentage ≠ 0.25 := by
  have hc : (construct rtPeriod s).cycleTime = 1000 / 33 := by
    show tetherFrequency (quot1000 (.num (((1000 : ℤ) / 30 : ℤ) : ℚ))) = 1000 / 33
    rw [tetherFrequency_quot1000_of_pos (by norm_num)]
    norm_num
  have hd : (construct rtPeriod s).dutyCyclePercentage = 1 / 400 := by
    show tetherDutyCycle ((0.25 : ℚ) / 100) = 1 / 400
    rw [tetherDutyCycle_eq]
    norm_num
  have ht : (construct rtPeriod s).dutyTimeWithinCycle
      = (construct rtPeriod s).cycleTime * (construct rtPeriod s).dutyCyclePercentage := rfl
  refine ⟨hc, hd, rfl, ?_, rfl, ?_, ?_⟩
  · rw [ht, hc, hd]; norm_num
  · rw [hc]
    rw [abs_of_neg (by norm_num)]
    norm_num
  · rw [hd]; norm_num

/-- C4, evaluated on the code: `update(MODIFY)` stores the duty parameter itself clamped
into [0, 1], without dividing it by 100; for 25 % it stores the duty fraction 1, not
0.25. -/
theorem C4_duty_not_divided_by_100 (f d rtPeriod : ℚ) (s : State) :
    (setParameters f d rtPeriod s).dutyCyclePercentage = max 0 (min 1 d) ∧
    (setParameters f 25 rtPeriod s).dutyCyclePercentage = 1 ∧
    (setParameters f 25 rtPeriod s).dutyCyclePercentage ≠ 25 / 100 := by
  have h25 : (setParameters f 25 rtPeriod s).dutyCyclePercentage = 1 := by
    rw [setParameters_dutyCyclePercentage, tetherDutyCycle_eq]
    norm_num
  refine ⟨?_, h25, ?_⟩
  · rw [setParameters_dutyCyclePercentage, tetherDutyCycle_eq]
  · rw [h25]; norm_num

/-- C5, evaluated at the failing input frequency 6000 Hz: 1000/6000 is below 1000/3000,
yet `update(MODIFY)` stores the cycle time 1000/6000 = 1/6 ms and not 1000/3000 ms. -/
theorem C5_cycleTime_not_clamped_at_6000 (d rtPeriod : ℚ) (s : State) :
    (1000 : ℚ) / 6000 ≤ 1000 / 3000 ∧
    (setParameters 6000 d rtPeriod s).cycleTime = 1 / 6 ∧
    (setParameters 6000 d rtPeriod s).cycleTime ≠ 1000 / 3000 := by
  have hc : (setParameters 6000 d rtPeriod s).cycleTime = 1 / 6 := by
    rw [setParameters_cycleTime, tetherFrequency_quot1000_of_pos (by norm_num)]
    norm_num
  refine ⟨by norm_num, hc, ?_⟩
  rw [hc]; norm_num

/-- C6 as stated fails: from a cycle of 33 ms with 32 ms accumulated and ticks of 1 ms,
one tick leaves elapsedTime = 33, which is not below the cycle time. -/
theorem C6_elapsed_reaches_cycleTime :
    0 < lastTick.cycleTime ∧ 0 < lastTick.period ∧ lastTick.elapsedTime.ge 0 ∧
    (execute lastTick).elapsedTime = .num 33 ∧ (execute lastTick).cycleTime = 33 ∧
    ¬ ((execute lastTick).elapsedTime.ge 0 ∧
      (execute lastTick).elapsedTime.lt (execute lastTick).cycleTime) := by
  have hc : lastTick.cycleTime ≠ 0 := by norm_num [lastTick]
  have hm : fmod 32 lastTick.cycleTime = 32 := by
    show fmod 32 33 = 32
    exact fmod_of_lt (by norm_num) (by norm_num)
  have hel : (execute lastTick).elapsedTime = .num 33 := by
    rw [execute_num (show lastTick.elapsedTime = .num 32 from rfl) hc]
    show Elapsed.num (fmod 32 lastTick.cycleTime + lastTick.period) = .num 33
    rw [hm]
    norm_num [lastTick]
  have hcy : (execute lastTick).cycleTime = 33 := rfl
  refine ⟨by norm_num [lastTick], by norm_num [lastTick], ?_, hel, hcy, ?_⟩
  · show (32 : ℚ) ≥ 0
    norm_num
  · rw [hel, hcy]
    intro h
    exact absurd h.2 (lt_irrefl (33 : ℚ))

/-- C6 amended: for every state with cycleTime > 0, period > 0 and elapsedTime ≥ 0, one
call of `execute` keeps the cycle time and the period, and leaves an elapsed time that is
a number, the tick period added to a value of [0, cycleTime): it is positive and
period ≤ elapsedTime < cycleTime + period. -/
theorem C6_execute_elapsed_bounds (s : State) (hc : 0 < s.cycleTime) (hp : 0 < s.period)
    (he : s.elapsedTime.ge 0) :
    ∃ e', (execute s).elapsedTime = .num e' ∧
      (execute s).cycleTime = s.cycleTime ∧ (execute s).period = s.period ∧
      0 ≤ e' - s.period ∧ e' - s.period < s.cycleTime ∧
      0 < e' ∧
      s.period ≤ e' ∧ e' < s.cycleTime + s.period := by
  obtain ⟨e, hs, h0⟩ := Elapsed.eq_num_of_ge he
  have h1 := fmod_nonneg h0 hc
  have h2 := fmod_lt h0 hc
  refine ⟨fmod e s.cycleTime + s.period, ?_, rfl, rfl, ?_, ?_, ?_, ?_, ?_⟩
  · rw [execute_num hs hc.ne.symm]
  all_goals linarith

/-- C6 amended, at the last tick of a 33 ms cycle. -/
theorem C6_execute_elapsed_bounds_witness :
    ∃ e', (execute lastTick).elapsedTime = .num e' ∧
      (execute lastTick).cycleTime = lastTick.cycleTime ∧
      (execute lastTick).period = lastTick.period ∧
      0 ≤ e' - lastTick.period ∧ e' - lastTick.period < lastTick.cycleTime ∧
      0 < e' ∧
      lastTick.period ≤ e' ∧ e' < lastTick.cycleTime + lastTick.period :=
  C6_execute_elapsed_bounds lastTick (by norm_num [lastTick]) (by norm_num [lastTick])
    (show (32 : ℚ) ≥ 0 by norm_num)

/-- C7: dutyTimeWithinCycle = cycleTime * dutyCyclePercentage holds after
`initParameters`, after `update(INIT)` and after `update(MODIFY)` from every state and for
every pair of parameter values; `execute`, `update(PERIOD)`, `update(PAUSE)`,
`update(UNPAUSE)`, the default branch of `update` and a write of the GUI parameters
preserve it; so it holds in every state reachable from construction. -/
theorem C7_dutyTime_invariant :
    (∀ s, dutyTimeConsistent (initParameters s)) ∧
    (∀ rtPeriod s, dutyTimeConsistent (update .INIT rtPeriod s)) ∧
    (∀ rtPeriod s, dutyTimeConsistent (update .MODIFY rtPeriod s)) ∧
    (∀ f d rtPeriod s, dutyTimeConsistent (setParameters f d rtPeriod s)) ∧
    (∀ s, dutyTimeConsistent s → dutyTimeConsistent (execute s)) ∧
    (∀ flag rtPeriod s, dutyTimeConsistent s → dutyTimeConsistent (update flag rtPeriod s)) ∧
    (∀ f d s, dutyTimeConsistent s → dutyTimeConsistent (writeParameters f d s)) ∧
    (∀ s, Reachable s → dutyTimeConsistent s) := by
  have hinit : ∀ s, dutyTimeConsistent (initParameters s) := fun _ => rfl
  have hexec : ∀ s, dutyTimeConsistent s → dutyTimeConsistent (execute s) :=
    fun _ hs => hs
  have hupd : ∀ flag rtPeriod s, dutyTimeConsistent s →
      dutyTimeConsistent (update flag rtPeriod s) := by
    intro flag rtPeriod s hs
    cases flag
    · rfl
    · rfl
    · exact hs
    · exact hs
    · exact hs
    · exact hs
  refine ⟨hinit, fun _ _ => rfl, fun _ _ => rfl, fun _ _ _ _ => rfl, hexec, hupd,
    fun _ _ _ hs => hs, ?_⟩
  intro s hs
  induction hs with
  | construct rtPeriod s => rfl
  | initParameters _ _ => exact hinit _
  | update flag rtPeriod _ ih => exact hupd flag rtPeriod _ ih
  | writeParameters f d _ ih => exact ih
  | execute _ ih => exact hexec _ ih

/-- C7 at a reachable state: constructed, parameters set to 30 Hz and 25 %, paused. -/
theorem C7_dutyTime_invariant_witness :
    dutyTimeConsistent
      (update .PAUSE 1000000 (setParameters 30 25 1000000 (construct 1000000 midCycle))) :=
  C7_dutyTime_invariant.2.2.2.2.2.2.2 _
    (Reachable.update _ _ (Reachable.update _ _
      (Reachable.writeParameters _ _ (Reachable.construct _ _))))

/-- C8: in every state reachable from construction by `initParameters`, `update` with any
flag, writes of any values to the GUI parameters and `execute`, the duty fraction lies in
[0, 1]. -/
theorem C8_duty_fraction_in_unit_interval (s : State) (h : Reachable s) :
    0 ≤ s.dutyCyclePercentage ∧ s.dutyCyclePercentage ≤ 1 := by
  induction h with
  | construct rtPeriod s =>
    exact ⟨tetherDutyCycle_nonneg _, tetherDutyCycle_le_one _⟩
  | initParameters _ _ =>
    show (0 : ℚ) ≤ 0.25 ∧ (0.25 : ℚ) ≤ 1
    norm_num
  | update flag rtPeriod _ ih =>
    cases flag
    · exact ⟨tetherDutyCycle_nonneg _, tetherDutyCycle_le_one _⟩
    · exact ⟨tetherDutyCycle_nonneg _, tetherDutyCycle_le_one _⟩
    · exact ih
    · exact ih
    · exact ih
    · exact ih
  | writeParameters f d _ ih => exact ih
  | execute _ ih => exact ih

/-- C8 at a reachable state: constructed, then parameters set to -3 Hz and 150 %. -/
theorem C8_duty_fraction_in_unit_interval_witness :
    Reachable (setParameters (-3) 150 1000000 (construct 1000000 midCycle)) ∧
    0 ≤ (setParameters (-3) 150 1000000 (construct 1000000 midCycle)).dutyCyclePercentage ∧
    (setParameters (-3) 150 1000000 (construct 1000000 midCycle)).dutyCyclePercentage ≤ 1 :=
  ⟨Reachable.update _ _ (Reachable.writeParameters _ _ (Reachable.construct _ _)),
    C8_duty_fraction_in_unit_interval _
      (Reachable.update _ _ (Reachable.writeParameters _ _ (Reachable.construct _ _)))⟩

/-- C9, evaluated on the code: constructed with a tick of 1 ms (1000000 ns) and then set
to 30 Hz and 25 %, the generator starts at elapsedTime = 0 with period 1, its on-time is
the whole cycle of 100/3 ms, and every tick puts 5 V on the output; the tick numbered 9
is on, not off. -/
theorem C9_every_tick_high (n : ℕ) (rtPeriod : ℚ) (s : State) :
    (setParameters 30 25 rtPeriod (construct 1000000 s)).elapsedTime = .num 0 ∧
    (setParameters 30 25 rtPeriod (construct 1000000 s)).period = 1 ∧
    (setParameters 30 25 rtPeriod (construct 1000000 s)).cycleTime = 100 / 3 ∧
    (setParameters 30 25 rtPeriod (construct 1000000 s)).dutyTimeWithinCycle = 100 / 3 ∧
    outputAt n (setParameters 30 25 rtPeriod (construct 1000000 s)) = 5 ∧
    outputAt 9 (setParameters 30 25 rtPeriod (construct 1000000 s)) = 5 := by
  have hp : (setParameters 30 25 rtPeriod (construct 1000000 s)).period = 1 := by
    show (1000000 : ℚ) * 1e-6 = 1
    norm_num
  have hc : (setParameters 30 25 rtPeriod (construct 1000000 s)).cycleTime = 100 / 3 := by
    rw [setParameters_cycleTime, tetherFrequency_quot1000_of_pos (by norm_num)]
    norm_num
  have hd : (setParameters 30 25 rtPeriod (construct 1000000 s)).dutyTimeWithinCycle
      = 100 / 3 := by
    rw [setParameters_dutyTimeWithinCycle, ← setParameters_cycleTime 30 25 rtPeriod
      (construct 1000000 s), hc, tetherDutyCycle_eq]
    norm_num
  have hall : ∀ m, outputAt m (setParameters 30 25 rtPeriod (construct 1000000 s)) = 5 := by
    intro m
    apply run_high
    · rw [hc]; norm_num
    · rw [hc, hd]
    · show (0 : ℚ) ≥ 0
      exact le_refl 0
    · rw [hp]; norm_num
  exact ⟨rfl, hp, hc, hd, hall n, hall 9⟩

/-- C10: for every frequency that is not negative (so for every frequency within
[0.3, 3000] Hz), every prior state with a positive tick period and an elapsed time that is
not negative, and every n: after `update(MODIFY)` with duty 0 the tick numbered n puts
0 V on the output, and after `update(MODIFY)` with duty 100 the tick numbered n puts 5 V
on it. -/
theorem C10_duty_extremes (f rtPeriod : ℚ) (s : State) (n : ℕ)
    (hf : 0 ≤ f) (hp : 0 < s.period) (he : s.elapsedTime.ge 0) :
    outputAt n (setParameters f 0 rtPeriod s) = 0 ∧
    outputAt n (setParameters f 100 rtPeriod s) = 5 := by
  have hc := tetherFrequency_pos_of_nonneg hf
  constructor
  · apply run_low
    · rw [setParameters_cycleTime]; exact hc
    · rw [setParameters_dutyTimeWithinCycle, tetherDutyCycle_eq]
      norm_num
    · rw [setParameters_elapsedTime]; exact he
    · rw [setParameters_period]; exact hp.le
  · apply run_high
    · rw [setParameters_cycleTime]; exact hc
    · rw [setParameters_dutyTimeWithinCycle, setParameters_cycleTime, tetherDutyCycle_eq]
      norm_num
    · rw [setParameters_elapsedTime]; exact he
    · rw [setParameters_period]; exact hp.le

/-- C10 at 30 Hz from the middle of a cycle, for the tick numbered 40. -/
theorem C10_duty_extremes_witness :
    outputAt 40 (setParameters 30 0 1000000 midCycle) = 0 ∧
    outputAt 40 (setParameters 30 100 1000000 midCycle) = 5 :=
  C10_duty_extremes 30 1000000 midCycle 40 (by norm_num)
    (by norm_num [midCycle]) (show (41 : ℚ) ≥ 0 by norm_num)

/-- C11, evaluated at the failing input frequency -1 Hz: `update(MODIFY)` stores the
cycle time 0, not 1000/0.3; the remainder of the next `execute` has a zero divisor and is
a NaN, `execute` leaves elapsedTime a NaN and puts 5 V on the output. The negative zero
as frequency is stored as the cycle time 0 as well. -/
theorem C11_negative_frequency_zero_cycle (d rtPeriod : ℚ) (s : State) :
    (setParameters (-1) d rtPeriod s).cycleTime = 0 ∧
    (setParameters (-1) d rtPeriod s).cycleTime ≠ 1000 / 0.3 ∧
    (setParameters (-1) d rtPeriod s).elapsedTime.mod
      (setParameters (-1) d rtPeriod s).cycleTime = .nan ∧
    (execute (setParameters (-1) d rtPeriod s)).elapsedTime = .nan ∧
    (execute (setParameters (-1) d rtPeriod s)).output0 = 5 ∧
    (update .MODIFY rtPeriod (writeParameters .negZero d s)).cycleTime = 0 := by
  have hc : (setParameters (-1) d rtPeriod s).cycleTime = 0 := by
    rw [setParameters_cycleTime, tetherFrequency_quot1000_of_neg (by norm_num)]
    norm_num
  have hm : (setParameters (-1) d rtPeriod s).elapsedTime.mod
      (setParameters (-1) d rtPeriod s).cycleTime = .nan := by
    rw [hc]
    cases (setParameters (-1) d rtPeriod s).elapsedTime with
    | num x => simp only [Elapsed.mod, if_true]
    | nan => rfl
  refine ⟨hc, ?_, hm, ?_, ?_, ?_⟩
  · rw [hc]; norm_num
  · show ((setParameters (-1) d rtPeriod s).elapsedTime.mod
      (setParameters (-1) d rtPeriod s).cycleTime).add _ = .nan
    rw [hm]
    rfl
  · show (if ((setParameters (-1) d rtPeriod s).elapsedTime.mod
        (setParameters (-1) d rtPeriod s).cycleTime).ge _ then (0 : ℚ) else 5) = 5
    rw [hm]
    exact if_neg (fun h => h)
  · show tetherFrequency (quot1000 .negZero) = 0
    exact tetherFrequency_negInf

/-- C12: `update(MODIFY)` with frequency 0.3 Hz stores the cycle time 1000/0.3, and with
frequency 3000 Hz it stores 1000/3000 = 1/3 ms, for every duty and every prior state. -/
theorem C12_cycleTime_at_the_bounds (d rtPeriod : ℚ) (s : State) :
    (setParameters 0.3 d rtPeriod s).cycleTime = 1000 / 0.3 ∧
    (setParameters 3000 d rtPeriod s).cycleTime = 1000 / 3000 ∧
    (setParameters 3000 d rtPeriod s).cycleTime = 1 / 3 := by
  have h3000 : (setParameters 3000 d rtPeriod s).cycleTime = 1 / 3 := by
    rw [setParameters_cycleTime, tetherFrequency_quot1000_of_pos (by norm_num)]
    norm_num
  refine ⟨?_, ?_, h3000⟩
  · rw [setParameters_cycleTime, tetherFrequency_quot1000_of_pos (by norm_num)]
    norm_num
  · rw [h3000]; norm_num

/-- C13: `update(MODIFY)` leaves elapsedTime and period as they were, for every state and
every pair of parameter values (and the output channel too). -/
theorem C13_setParameters_keeps_phase (f d rtPeriod : ℚ) (s : State) :
    (setParameters f d rtPeriod s).elapsedTime = s.elapsedTime ∧
    (setParameters f d rtPeriod s).period = s.period ∧
    (setParameters f d rtPeriod s).output0 = s.output0 ∧
    (update .MODIFY rtPeriod s).elapsedTime = s.elapsedTime ∧
    (update .MODIFY rtPeriod s).period = s.period :=
  ⟨rfl, rfl, rfl, rfl, rfl⟩

/-- C14: `update(PAUSE)` puts 0 V on the output and changes no other member;
`update(UNPAUSE)` changes nothing; the tick after a pause and a resume is the tick that
would have been taken from the state at the moment of the pause. -/
theorem C14_pause_resume (rtPeriod rtPeriod' : ℚ) (s : State) :
    (update .PAUSE rtPeriod s).output0 = 0 ∧
    update .PAUSE rtPeriod s = { s with output0 := 0 } ∧
    (update .PAUSE rtPeriod s).cycleTime = s.cycleTime ∧
    (update .PAUSE rtPeriod s).dutyCyclePercentage = s.dutyCyclePercentage ∧
    (update .PAUSE rtPeriod s).dutyTimeWithinCycle = s.dutyTimeWithinCycle ∧
    (update .PAUSE rtPeriod s).period = s.period ∧
    (update .PAUSE rtPeriod s).elapsedTime = s.elapsedTime ∧
    update .UNPAUSE rtPeriod s = s ∧
    execute (update .UNPAUSE rtPeriod' (update .PAUSE rtPeriod s)) = execute s :=
  ⟨rfl, rfl, rfl, rfl, rfl, rfl, rfl, rfl, rfl⟩

/-- C15: `update(MODIFY)` with the same two parameter values a second time changes
nothing, and what it stores in cycleTime, dutyCyclePercentage and dutyTimeWithinCycle is
the same from any two prior states: it depends on the two parameter values only. -/
theorem C15_setParameters_idempotent (f d rtPeriod rtPeriod' : ℚ) (s t : State) :
    setParameters f d rtPeriod' (setParameters f d rtPeriod s) = setParameters f d rtPeriod s ∧
    (setParameters f d rtPeriod' (setParameters f d rtPeriod s)).dutyTimeWithinCycle =
      (setParameters f d rtPeriod s).dutyTimeWithinCycle ∧
    (setParameters f d rtPeriod s).dutyTimeWithinCycle =
      (setParameters f d rtPeriod' t).dutyTimeWithinCycle ∧
    (setParameters f d rtPeriod s).cycleTime = (setParameters f d rtPeriod' t).cycleTime ∧
    (setParameters f d rtPeriod s).dutyCyclePercentage =
      (setParameters f d rtPeriod' t).dutyCyclePercentage :=
  ⟨rfl, rfl, rfl, rfl, rfl⟩

/-- C16: `update(PERIOD)` stores the reported period times 1e-6 in `period` and changes no
other member; the level put on the output by the next `execute` is the one it would have
put without the change, and the new period is what that `execute` adds to the wrapped
elapsed time. -/
theorem C16_update_period (rtPeriod : ℚ) (s : State) :
    (update .PERIOD rtPeriod s).period = rtPeriod * 1e-6 ∧
    update .PERIOD rtPeriod s = { s with period := rtPeriod * 1e-6 } ∧
    (update .PERIOD rtPeriod s).cycleTime = s.cycleTime ∧
    (update .PERIOD rtPeriod s).dutyCyclePercentage = s.dutyCyclePercentage ∧
    (update .PERIOD rtPeriod s).dutyTimeWithinCycle = s.dutyTimeWithinCycle ∧
    (update .PERIOD rtPeriod s).elapsedTime = s.elapsedTime ∧
    (execute (update .PERIOD rtPeriod s)).output0 = (execute s).output0 ∧
    (execute (update .PERIOD rtPeriod s)).elapsedTime =
      (s.elapsedTime.mod s.cycleTime).add (rtPeriod * 1e-6) ∧
    (execute (update .PERIOD rtPeriod s)).period = rtPeriod * 1e-6 ∧
    (∀ e, s.elapsedTime = .num e → s.cycleTime ≠ 0 →
      (execute (update .PERIOD rtPeriod s)).elapsedTime =
        .num (fmod e s.cycleTime + rtPeriod * 1e-6)) := by
  refine ⟨rfl, rfl, rfl, rfl, rfl, rfl, rfl, rfl, rfl, ?_⟩
  intro e he hc
  rw [execute_num (show (update .PERIOD rtPeriod s).elapsedTime = .num e from he)
    (show (update .PERIOD rtPeriod s).cycleTime ≠ 0 from hc)]
  rfl

/-- C17: for every state, the elapsed time that `execute` leaves is the remainder of the
old elapsed time by the cycle time, plus the period (a NaN when the remainder is one); the
output was decided on the remainder alone, before the period was added; cycleTime,
dutyCyclePercentage, dutyTimeWithinCycle and period are unchanged. When the old elapsed
time is a number e and the cycle time is not zero, the new one is the number
fmod e cycleTime + period. -/
theorem C17_execute_advance (s : State) :
    (execute s).elapsedTime = (s.elapsedTime.mod s.cycleTime).add s.period ∧
    (execute s).output0 =
      (if (s.elapsedTime.mod s.cycleTime).ge s.dutyTimeWithinCycle then 0 else 5) ∧
    (execute s).cycleTime = s.cycleTime ∧
    (execute s).dutyCyclePercentage = s.dutyCyclePercentage ∧
    (execute s).dutyTimeWithinCycle = s.dutyTimeWithinCycle ∧
    (execute s).period = s.period ∧
    (∀ e, s.elapsedTime = .num e → s.cycleTime ≠ 0 →
      (execute s).elapsedTime = .num (fmod e s.cycleTime + s.period) ∧
      (execute s).output0 =
        (if fmod e s.cycleTime ≥ s.dutyTimeWithinCycle then 0 else 5)) := by
  refine ⟨rfl, rfl, rfl, rfl, rfl, rfl, ?_⟩
  intro e he hc
  rw [execute_num he hc]
  exact ⟨rfl, rfl⟩

/-- C19 as stated fails for a negative elapsed time: from a cycle of 33 ms with -1 ms
accumulated and ticks of 1 ms, `execute` leaves elapsedTime = 0, below the period. -/
theorem C19_negative_elapsed_below_period :
    0 < negativeElapsed.cycleTime ∧ 0 ≤ negativeElapsed.period ∧
    (execute negativeElapsed).elapsedTime = .num 0 ∧ (execute negativeElapsed).period = 1 ∧
    ¬ ((execute negativeElapsed).elapsedTime.ge (execute negativeElapsed).period) := by
  have hc : negativeElapsed.cycleTime ≠ 0 := by norm_num [negativeElapsed]
  have hceil : ⌈((-1 : ℚ) / 33)⌉ = 0 := by
    rw [Int.ceil_eq_iff]
    norm_num
  have hm : fmod (-1) negativeElapsed.cycleTime = -1 := by
    show fmod (-1) 33 = -1
    unfold fmod truncQ
    rw [if_neg (by norm_num), hceil]
    norm_num
  have hel : (execute negativeElapsed).elapsedTime = .num 0 := by
    rw [execute_num (show negativeElapsed.elapsedTime = .num (-1) from rfl) hc]
    show Elapsed.num (fmod (-1) negativeElapsed.cycleTime + negativeElapsed.period) = .num 0
    rw [hm]
    norm_num [negativeElapsed]
  have hpe : (execute negativeElapsed).period = 1 := rfl
  refine ⟨by norm_num [negativeElapsed], by norm_num [negativeElapsed], hel, hpe, ?_⟩
  rw [hel, hpe]
  show ¬ ((0 : ℚ) ≥ 1)
  norm_num

/-- C19 amended: for every state with cycleTime > 0 and period ≥ 0 whose elapsed time is a
number, `execute` leaves an elapsed time that is a number within one cycle of the period,
whatever the number before; when it was not negative before, it is not negative after and
period ≤ elapsedTime < cycleTime + period; when it was negative before,
period - cycleTime < elapsedTime ≤ period. -/
theorem C19_execute_elapsed_range (s : State) (e : ℚ) (hs : s.elapsedTime = .num e)
    (hc : 0 < s.cycleTime) (hp : 0 ≤ s.period) :
    ∃ e', (execute s).elapsedTime = .num e' ∧
      (execute s).cycleTime = s.cycleTime ∧ (execute s).period = s.period ∧
      (s.period - s.cycleTime < e' ∧ e' < s.cycleTime + s.period) ∧
      (0 ≤ e → 0 ≤ e' ∧ s.period ≤ e' ∧ e' < s.cycleTime + s.period) ∧
      (e < 0 → s.period - s.cycleTime < e' ∧ e' ≤ s.period) := by
  have hnn : 0 ≤ e → 0 ≤ fmod e s.cycleTime ∧ fmod e s.cycleTime < s.cycleTime :=
    fun he => ⟨fmod_nonneg he hc, fmod_lt he hc⟩
  have hneg : e < 0 → -s.cycleTime < fmod e s.cycleTime ∧ fmod e s.cycleTime ≤ 0 :=
    fun he => fmod_of_neg he hc
  refine ⟨fmod e s.cycleTime + s.period, ?_, rfl, rfl, ?_, ?_, ?_⟩
  · rw [execute_num hs hc.ne.symm]
  · rcases le_or_lt 0 e with he | he
    · obtain ⟨h0, h1⟩ := hnn he
      constructor <;> linarith
    · obtain ⟨h0, h1⟩ := hneg he
      constructor <;> linarith
  · intro he
    obtain ⟨h0, h1⟩ := hnn he
    refine ⟨?_, ?_, ?_⟩ <;> linarith
  · intro he
    obtain ⟨h0, h1⟩ := hneg he
    constructor <;> linarith

/-- C19 amended, at a state with -1 ms accumulated in a cycle of 33 ms. -/
theorem C19_execute_elapsed_range_witness :
    ∃ e', (execute negativeElapsed).elapsedTime = .num e' ∧
      (execute negativeElapsed).cycleTime = negativeElapsed.cycleTime ∧
      (execute negativeElapsed).period = negativeElapsed.period ∧
      (negativeElapsed.period - negativeElapsed.cycleTime < e' ∧
        e' < negativeElapsed.cycleTime + negativeElapsed.period) ∧
      ((0 : ℚ) ≤ -1 → 0 ≤ e' ∧ negativeElapsed.period ≤ e' ∧
        e' < negativeElapsed.cycleTime + negativeElapsed.period) ∧
      ((-1 : ℚ) < 0 → negativeElapsed.period - negativeElapsed.cycleTime < e' ∧
        e' ≤ negativeElapsed.period) :=
  C19_execute_elapsed_range negativeElapsed (-1) rfl (by norm_num [negativeElapsed])
    (by norm_num [negativeElapsed])

/-- C20: for every frequency (zero included) and every duty value given to
`update(MODIFY)`, the stored cycle time lies in [0, 1000/0.3] and the stored on-time lies
in [0, cycleTime]. -/
theorem C20_onTime_within_cycle (f d rtPeriod : ℚ) (s : State) :
    0 ≤ (setParameters f d rtPeriod s).cycleTime ∧
    (setParameters f d rtPeriod s).cycleTime ≤ 1000 / 0.3 ∧
    0 ≤ (setParameters f d rtPeriod s).dutyTimeWithinCycle ∧
    (setParameters f d rtPeriod s).dutyTimeWithinCycle
      ≤ (setParameters f d rtPeriod s).cycleTime := by
  have hb := tetherFrequency_bounds (quot1000 (.num f))
  have h0 := tetherDutyCycle_nonneg d
  have h1 := tetherDutyCycle_le_one d
  rw [setParameters_cycleTime, setParameters_dutyTimeWithinCycle]
  refine ⟨hb.1, ?_, mul_nonneg hb.1 h0, ?_⟩
  · have : (1000 : ℚ) / 0.3 = 10000 / 3 := by norm_num
    rw [this]
    exact hb.2
  · calc tetherFrequency (quot1000 (.num f)) * tetherDutyCycle d
        ≤ tetherFrequency (quot1000 (.num f)) * 1 := mul_le_mul_of_nonneg_left h1 hb.1
      _ = tetherFrequency (quot1000 (.num f)) := mul_one _

end LaserController
